import Mathlib

/-!
Verification of the AT2XT keyboard-bus pin driver (src/src/driver.rs).

The driver manipulates the six 8-bit registers of the MSP430 PORT_1_2 block
through masked read-modify-write transactions.  We embed the register block as
a structure of natural numbers (each register an 8-bit value, kept below 256),
the two Rust helper macros as pure functions on register values, and each
driver operation as a state transformer on the register block, translated
line by line from the Rust source.
-/

/-- Model of the msp430g2211 PORT_1_2 register block: six 8-bit registers.
Each field is a natural number; a hardware-faithful state keeps every field
below 256. -/
structure PORT_1_2 where
  p1in  : Nat
  p1out : Nat
  p1dir : Nat
  p1ifg : Nat
  p1ies : Nat
  p1ie  : Nat
deriving Repr, DecidableEq

/-- The Rust macro set_bits_with_mask: `w.bits(r.bits() | m)`. -/
def set_bits_with_mask (r m : Nat) : Nat := r ||| m

/-- The Rust macro clear_bits_with_mask: `w.bits(r.bits() & !m)`; on u8 the
complement `!m` is `255 ^^^ m`. -/
def clear_bits_with_mask (r m : Nat) : Nat := r &&& (255 ^^^ m)

/-- A pin: one bit position on the shared port (Rust struct Pin). -/
structure Pin where
  loc : Nat
deriving Repr, DecidableEq

/-- `Pin::new(pin_no)`. -/
def Pin.new (pin_no : Nat) : Pin := ⟨pin_no⟩

/-- `Pin::bitmask`: `1 << self.loc` on u8, so the shift is reduced mod 2^8. -/
def Pin.bitmask (s : Pin) : Nat := (1 <<< s.loc) % 256

/-- `Pin::set`: set this pin's bit in P1OUT. -/
def Pin.set (s : Pin) (p : PORT_1_2) : PORT_1_2 :=
  { p with p1out := set_bits_with_mask p.p1out s.bitmask }

/-- `Pin::unset`: clear this pin's bit in P1OUT. -/
def Pin.unset (s : Pin) (p : PORT_1_2) : PORT_1_2 :=
  { p with p1out := clear_bits_with_mask p.p1out s.bitmask }

/-- `Pin::mk_in`: clear this pin's bit in P1DIR (configure as input). -/
def Pin.mk_in (s : Pin) (p : PORT_1_2) : PORT_1_2 :=
  { p with p1dir := clear_bits_with_mask p.p1dir s.bitmask }

/-- `Pin::mk_out`: set this pin's bit in P1DIR (configure as output). -/
def Pin.mk_out (s : Pin) (p : PORT_1_2) : PORT_1_2 :=
  { p with p1dir := set_bits_with_mask p.p1dir s.bitmask }

/-- `Pin::is_set`: `(p.p1in.read().bits() & self.bitmask()) != 0`. -/
def Pin.is_set (s : Pin) (p : PORT_1_2) : Bool :=
  (p.p1in &&& s.bitmask) != 0

/-- `Pin::is_unset`: `(p.p1in.read().bits() & self.bitmask()) == 0`. -/
def Pin.is_unset (s : Pin) (p : PORT_1_2) : Bool :=
  (p.p1in &&& s.bitmask) == 0

/-- The five named pins (Rust struct KeyboardPins). -/
structure KeyboardPins where
  at_clk : Pin
  at_data : Pin
  xt_clk : Pin
  xt_data : Pin
  xt_sense : Pin
deriving Repr, DecidableEq

/-- `KeyboardPins::new()`: the fixed wiring. -/
def KeyboardPins.new : KeyboardPins :=
  { at_clk := Pin.new 0
    at_data := Pin.new 4
    xt_clk := Pin.new 2
    xt_data := Pin.new 3
    xt_sense := Pin.new 1 }

/-- `KeyboardPins::idle`: full write of P1DIR to 0x00, then clear the at_clk
bit of P1IFG, set it in P1IES, set it in P1IE. -/
def KeyboardPins.idle (k : KeyboardPins) (p : PORT_1_2) : PORT_1_2 :=
  let p := { p with p1dir := 0x00 }
  let p := { p with p1ifg := clear_bits_with_mask p.p1ifg k.at_clk.bitmask }
  let p := { p with p1ies := set_bits_with_mask p.p1ies k.at_clk.bitmask }
  { p with p1ie := set_bits_with_mask p.p1ie k.at_clk.bitmask }

/-- `KeyboardPins::disable_at_clk_int`: clear the at_clk bit of P1IE. -/
def KeyboardPins.disable_at_clk_int (k : KeyboardPins) (p : PORT_1_2) : PORT_1_2 :=
  { p with p1ie := clear_bits_with_mask p.p1ie k.at_clk.bitmask }

/-- `KeyboardPins::enable_at_clk_int`: set the at_clk bit of P1IE. -/
def KeyboardPins.enable_at_clk_int (k : KeyboardPins) (p : PORT_1_2) : PORT_1_2 :=
  { p with p1ie := set_bits_with_mask p.p1ie k.at_clk.bitmask }

/-- `KeyboardPins::clear_at_clk_int`: clear the at_clk bit of P1IFG. -/
def KeyboardPins.clear_at_clk_int (k : KeyboardPins) (p : PORT_1_2) : PORT_1_2 :=
  { p with p1ifg := clear_bits_with_mask p.p1ifg k.at_clk.bitmask }

/-- `KeyboardPins::at_idle`: drive at_clk and at_data high, then clear both
bits in P1DIR. -/
def KeyboardPins.at_idle (k : KeyboardPins) (p : PORT_1_2) : PORT_1_2 :=
  let p := k.at_clk.set p
  let p := k.at_data.set p
  let at_mask : Nat := k.at_clk.bitmask ||| k.at_data.bitmask
  { p with p1dir := clear_bits_with_mask p.p1dir at_mask }

/-- `KeyboardPins::at_inhibit`: drive at_clk low, at_data high, then set both
bits in P1DIR. -/
def KeyboardPins.at_inhibit (k : KeyboardPins) (p : PORT_1_2) : PORT_1_2 :=
  let p := k.at_clk.unset p
  let p := k.at_data.set p
  let at_mask : Nat := k.at_clk.bitmask ||| k.at_data.bitmask
  { p with p1dir := set_bits_with_mask p.p1dir at_mask }

/-- `KeyboardPins::at_send`: drive both bus-A lines high, release clock to
input, configure data as output. -/
def KeyboardPins.at_send (k : KeyboardPins) (p : PORT_1_2) : PORT_1_2 :=
  let p := k.at_clk.set p
  let p := k.at_data.set p
  let p := k.at_clk.mk_in p
  k.at_data.mk_out p

/-- `KeyboardPins::xt_out`: set both bus-B bits in P1OUT, then in P1DIR. -/
def KeyboardPins.xt_out (k : KeyboardPins) (p : PORT_1_2) : PORT_1_2 :=
  let xt_mask : Nat := k.xt_clk.bitmask ||| k.xt_data.bitmask
  let p := { p with p1out := set_bits_with_mask p.p1out xt_mask }
  { p with p1dir := set_bits_with_mask p.p1dir xt_mask }

/-- `KeyboardPins::xt_in`: set only the xt_data bit in P1OUT, then clear both
bus-B bits in P1DIR. -/
def KeyboardPins.xt_in (k : KeyboardPins) (p : PORT_1_2) : PORT_1_2 :=
  let xt_mask : Nat := k.xt_clk.bitmask ||| k.xt_data.bitmask
  let p := { p with p1out := set_bits_with_mask p.p1out k.xt_data.bitmask }
  { p with p1dir := clear_bits_with_mask p.p1dir xt_mask }

/-- A register state with every register seeded with an arbitrary bit
pattern, used by the concrete witnesses. -/
def regsA : PORT_1_2 := ⟨165, 90, 255, 15, 240, 51⟩

/-- A second seeded state that agrees with `regsA` on P1IN only. -/
def regsB : PORT_1_2 := ⟨165, 7, 13, 200, 99, 1⟩

/-! ### Bit-level helper lemmas about the two masked-update helpers -/

lemma testBit_set_preserve (r m j : Nat) (hm : m.testBit j = false) :
    (set_bits_with_mask r m).testBit j = r.testBit j := by
  simp [set_bits_with_mask, Nat.testBit_or, hm]

lemma testBit_set_sets (r m j : Nat) (hm : m.testBit j = true) :
    (set_bits_with_mask r m).testBit j = true := by
  simp [set_bits_with_mask, Nat.testBit_or, hm]

lemma testBit_clear_clears (r m j : Nat) (hm : (255 ^^^ m).testBit j = false) :
    (clear_bits_with_mask r m).testBit j = false := by
  simp [clear_bits_with_mask, Nat.testBit_and, hm]

lemma testBit_high {r : Nat} (hr : r < 256) {j : Nat} (hj : 8 ≤ j) :
    r.testBit j = false := by
  have h : (256 : Nat) ≤ 2 ^ j := by
    calc (256 : Nat) = 2 ^ 8 := by norm_num
    _ ≤ 2 ^ j := Nat.pow_le_pow_right (by norm_num) hj
  exact Nat.testBit_lt_two_pow (lt_of_lt_of_le hr h)

lemma testBit_clear_preserve (r m j : Nat) (hr : r < 256) (hm : m.testBit j = false) :
    (clear_bits_with_mask r m).testBit j = r.testBit j := by
  by_cases hj : j < 8
  · have h255 : Nat.testBit 255 j = true := by
      have h : (255 : Nat) = 2 ^ 8 - 1 := by norm_num
      rw [h, Nat.testBit_two_pow_sub_one]
      simpa using hj
    simp [clear_bits_with_mask, Nat.testBit_and, Nat.testBit_xor, h255, hm]
  · have hjr : r.testBit j = false := testBit_high hr (by omega)
    simp [clear_bits_with_mask, Nat.testBit_and, hjr]

lemma testBit_mask_pow {k j : Nat} (h : j ≠ k) : Nat.testBit (2 ^ k) j = false :=
  Nat.testBit_two_pow_of_ne (Ne.symm h)

lemma testBit_one_ne {j : Nat} (h : j ≠ 0) : Nat.testBit 1 j = false := by
  have h1 : (1 : Nat) = 2 ^ 0 := rfl
  rw [h1]; exact testBit_mask_pow h

lemma testBit_sixteen_ne {j : Nat} (h : j ≠ 4) : Nat.testBit 16 j = false := by
  have h1 : (16 : Nat) = 2 ^ 4 := by norm_num
  rw [h1]; exact testBit_mask_pow h

lemma testBit_seventeen_ne {j : Nat} (h0 : j ≠ 0) (h4 : j ≠ 4) :
    Nat.testBit 17 j = false := by
  have h1 : (17 : Nat) = 2 ^ 0 ||| 2 ^ 4 := by decide
  rw [h1, Nat.testBit_or, testBit_mask_pow h0, testBit_mask_pow h4]
  rfl

lemma testBit_four_ne {j : Nat} (h : j ≠ 2) : Nat.testBit 4 j = false := by
  have h1 : (4 : Nat) = 2 ^ 2 := by norm_num
  rw [h1]; exact testBit_mask_pow h

lemma testBit_eight_ne {j : Nat} (h : j ≠ 3) : Nat.testBit 8 j = false := by
  have h1 : (8 : Nat) = 2 ^ 3 := by norm_num
  rw [h1]; exact testBit_mask_pow h

lemma testBit_twelve_ne {j : Nat} (h2 : j ≠ 2) (h3 : j ≠ 3) :
    Nat.testBit 12 j = false := by
  have h1 : (12 : Nat) = 2 ^ 2 ||| 2 ^ 3 := by decide
  rw [h1, Nat.testBit_or, testBit_mask_pow h2, testBit_mask_pow h3]
  rfl

lemma bitmask_eq_pow {loc : Nat} (h : loc ≤ 7) : (Pin.new loc).bitmask = 2 ^ loc := by
  have hlt : 2 ^ loc < 256 := by
    calc 2 ^ loc ≤ 2 ^ 7 := Nat.pow_le_pow_right (by norm_num) h
    _ < 256 := by norm_num
  simp [Pin.new, Pin.bitmask, Nat.shiftLeft_eq, Nat.mod_eq_of_lt hlt]

/-! ### Claims -/

/-- Claim C8: for every position p with p ≤ 7, the bitmask of a pin built at
position p equals 1 <<< p (the shift does not overflow the 8-bit value), and
the position-to-bitmask mapping is injective on 0–7. -/
theorem claim_C8 (p : Nat) (hp : p ≤ 7) :
    (Pin.new p).bitmask = 1 <<< p ∧
    ∀ q : Nat, q ≤ 7 → (Pin.new p).bitmask = (Pin.new q).bitmask → p = q := by
  constructor
  · rw [bitmask_eq_pow hp, Nat.shiftLeft_eq, one_mul]
  · intro q hq heq
    rw [bitmask_eq_pow hp, bitmask_eq_pow hq] at heq
    exact Nat.pow_right_injective (le_refl 2) heq

/-- Witness for C8 at position 3 and (inside the injectivity part) position 5. -/
theorem claim_C8_witness :
    (Pin.new 3).bitmask = 1 <<< 3 ∧
    ((Pin.new 3).bitmask = (Pin.new 5).bitmask → 3 = 5) :=
  ⟨(claim_C8 3 (by decide)).1, fun h => (claim_C8 3 (by decide)).2 5 (by decide) h⟩

/-- Claim C9: the five pins of KeyboardPins.new have pairwise distinct
positions, each strictly below 8; every bitmask is the exact (non-overflowing)
shift 1 <<< position and is below 256, and the five bitmasks are pairwise
disjoint. -/
theorem claim_C9 :
    KeyboardPins.new.at_clk.loc < 8 ∧ KeyboardPins.new.at_data.loc < 8 ∧
    KeyboardPins.new.xt_clk.loc < 8 ∧ KeyboardPins.new.xt_data.loc < 8 ∧
    KeyboardPins.new.xt_sense.loc < 8 ∧
    KeyboardPins.new.at_clk.loc ≠ KeyboardPins.new.at_data.loc ∧
    KeyboardPins.new.at_clk.loc ≠ KeyboardPins.new.xt_clk.loc ∧
    KeyboardPins.new.at_clk.loc ≠ KeyboardPins.new.xt_data.loc ∧
    KeyboardPins.new.at_clk.loc ≠ KeyboardPins.new.xt_sense.loc ∧
    KeyboardPins.new.at_data.loc ≠ KeyboardPins.new.xt_clk.loc ∧
    KeyboardPins.new.at_data.loc ≠ KeyboardPins.new.xt_data.loc ∧
    KeyboardPins.new.at_data.loc ≠ KeyboardPins.new.xt_sense.loc ∧
    KeyboardPins.new.xt_clk.loc ≠ KeyboardPins.new.xt_data.loc ∧
    KeyboardPins.new.xt_clk.loc ≠ KeyboardPins.new.xt_sense.loc ∧
    KeyboardPins.new.xt_data.loc ≠ KeyboardPins.new.xt_sense.loc ∧
    KeyboardPins.new.at_clk.bitmask = 1 <<< KeyboardPins.new.at_clk.loc ∧
    KeyboardPins.new.at_data.bitmask = 1 <<< KeyboardPins.new.at_data.loc ∧
    KeyboardPins.new.xt_clk.bitmask = 1 <<< KeyboardPins.new.xt_clk.loc ∧
    KeyboardPins.new.xt_data.bitmask = 1 <<< KeyboardPins.new.xt_data.loc ∧
    KeyboardPins.new.xt_sense.bitmask = 1 <<< KeyboardPins.new.xt_sense.loc ∧
    KeyboardPins.new.at_clk.bitmask < 256 ∧ KeyboardPins.new.at_data.bitmask < 256 ∧
    KeyboardPins.new.xt_clk.bitmask < 256 ∧ KeyboardPins.new.xt_data.bitmask < 256 ∧
    KeyboardPins.new.xt_sense.bitmask < 256 ∧
    KeyboardPins.new.at_clk.bitmask &&& KeyboardPins.new.at_data.bitmask = 0 ∧
    KeyboardPins.new.at_clk.bitmask &&& KeyboardPins.new.xt_clk.bitmask = 0 ∧
    KeyboardPins.new.at_clk.bitmask &&& KeyboardPins.new.xt_data.bitmask = 0 ∧
    KeyboardPins.new.at_clk.bitmask &&& KeyboardPins.new.xt_sense.bitmask = 0 ∧
    KeyboardPins.new.at_data.bitmask &&& KeyboardPins.new.xt_clk.bitmask = 0 ∧
    KeyboardPins.new.at_data.bitmask &&& KeyboardPins.new.xt_data.bitmask = 0 ∧
    KeyboardPins.new.at_data.bitmask &&& KeyboardPins.new.xt_sense.bitmask = 0 ∧
    KeyboardPins.new.xt_clk.bitmask &&& KeyboardPins.new.xt_data.bitmask = 0 ∧
    KeyboardPins.new.xt_clk.bitmask &&& KeyboardPins.new.xt_sense.bitmask = 0 ∧
    KeyboardPins.new.xt_data.bitmask &&& KeyboardPins.new.xt_sense.bitmask = 0 := by
  decide

/-- Counterexample to claim C1 as stated: the claim requires the bus-A data
line (bit 4) to end with its direction bit cleared (input) after at_inhibit,
but at the seeded state regsA the code leaves that direction bit set
(output), because at_inhibit applies set_bits_with_mask to P1DIR with the
combined clock-and-data mask. -/
theorem claim_C1_cex :
    Nat.testBit ((KeyboardPins.new.at_inhibit regsA).p1dir) 4 = true := by decide

/-- Claim C1 (amended): after at_inhibit, the bus-A clock line has output 0
and direction set (output), and the bus-A data line has output 1 and
direction SET (output) — the code sets both bus-A direction bits, it does not
release the data line to input — while every bit outside the two bus-A
positions is unchanged and the remaining registers are untouched. -/
theorem claim_C1 (regs : PORT_1_2) (hout : regs.p1out < 256) :
    Nat.testBit (KeyboardPins.new.at_inhibit regs).p1out 0 = false ∧
    Nat.testBit (KeyboardPins.new.at_inhibit regs).p1dir 0 = true ∧
    Nat.testBit (KeyboardPins.new.at_inhibit regs).p1out 4 = true ∧
    Nat.testBit (KeyboardPins.new.at_inhibit regs).p1dir 4 = true ∧
    (∀ j : Nat, j ≠ 0 → j ≠ 4 →
      Nat.testBit (KeyboardPins.new.at_inhibit regs).p1out j = Nat.testBit regs.p1out j ∧
      Nat.testBit (KeyboardPins.new.at_inhibit regs).p1dir j = Nat.testBit regs.p1dir j) ∧
    (KeyboardPins.new.at_inhibit regs).p1in = regs.p1in ∧
    (KeyboardPins.new.at_inhibit regs).p1ifg = regs.p1ifg ∧
    (KeyboardPins.new.at_inhibit regs).p1ies = regs.p1ies ∧
    (KeyboardPins.new.at_inhibit regs).p1ie = regs.p1ie := by
  have heq : KeyboardPins.new.at_inhibit regs =
      { regs with p1out := set_bits_with_mask (clear_bits_with_mask regs.p1out 1) 16
                  p1dir := set_bits_with_mask regs.p1dir 17 } := rfl
  rw [heq]
  refine ⟨?_, ?_, ?_, ?_, ?_, rfl, rfl, rfl, rfl⟩
  · rw [testBit_set_preserve _ _ _ (by decide)]
    exact testBit_clear_clears _ _ _ (by decide)
  · exact testBit_set_sets _ _ _ (by decide)
  · exact testBit_set_sets _ _ _ (by decide)
  · exact testBit_set_sets _ _ _ (by decide)
  · intro j h0 h4
    constructor
    · rw [testBit_set_preserve _ _ _ (testBit_sixteen_ne h4)]
      exact testBit_clear_preserve _ _ _ hout (testBit_one_ne h0)
    · exact testBit_set_preserve _ _ _ (testBit_seventeen_ne h0 h4)

/-- Witness for (amended) C1 at the seeded state regsA, exercising the fixed
bits and an unrelated bit (bit 5). -/
theorem claim_C1_witness :
    Nat.testBit (KeyboardPins.new.at_inhibit regsA).p1out 0 = false ∧
    Nat.testBit (KeyboardPins.new.at_inhibit regsA).p1dir 0 = true ∧
    Nat.testBit (KeyboardPins.new.at_inhibit regsA).p1out 5 = Nat.testBit regsA.p1out 5 :=
  ⟨(claim_C1 regsA (by decide)).1, (claim_C1 regsA (by decide)).2.1,
   ((claim_C1 regsA (by decide)).2.2.2.2.1 5 (by decide) (by decide)).1⟩

/-- Claim C2: for every pin position 0–7 and every starting register state,
each primitive (set, unset, mk_out, mk_in) changes at most its own bit of its
target register: every other bit of that register is preserved bit-for-bit. -/
theorem claim_C2 (loc : Nat) (hloc : loc ≤ 7) (regs : PORT_1_2)
    (hout : regs.p1out < 256) (hdir : regs.p1dir < 256) :
    ∀ j : Nat, j ≠ loc →
      Nat.testBit ((Pin.new loc).set regs).p1out j = Nat.testBit regs.p1out j ∧
      Nat.testBit ((Pin.new loc).unset regs).p1out j = Nat.testBit regs.p1out j ∧
      Nat.testBit ((Pin.new loc).mk_out regs).p1dir j = Nat.testBit regs.p1dir j ∧
      Nat.testBit ((Pin.new loc).mk_in regs).p1dir j = Nat.testBit regs.p1dir j := by
  intro j hj
  have hm : ((Pin.new loc).bitmask).testBit j = false := by
    rw [bitmask_eq_pow hloc]; exact testBit_mask_pow hj
  exact ⟨testBit_set_preserve _ _ _ hm,
         testBit_clear_preserve _ _ _ hout hm,
         testBit_set_preserve _ _ _ hm,
         testBit_clear_preserve _ _ _ hdir hm⟩

/-- Witness for C2 at position 2, the seeded state regsA and unrelated bit 5. -/
theorem claim_C2_witness :
    Nat.testBit ((Pin.new 2).set regsA).p1out 5 = Nat.testBit regsA.p1out 5 ∧
    Nat.testBit ((Pin.new 2).unset regsA).p1out 5 = Nat.testBit regsA.p1out 5 ∧
    Nat.testBit ((Pin.new 2).mk_in regsA).p1dir 5 = Nat.testBit regsA.p1dir 5 :=
  ⟨(claim_C2 2 (by decide) regsA (by decide) (by decide) 5 (by decide)).1,
   (claim_C2 2 (by decide) regsA (by decide) (by decide) 5 (by decide)).2.1,
   (claim_C2 2 (by decide) regsA (by decide) (by decide) 5 (by decide)).2.2.2⟩

/-- Claim C3: idle writes the whole direction register to 0x00, clears the
bus-A clock bit of the interrupt-flag register, sets it in the edge-select
register and sets it in the interrupt-enable register, preserving every
non-bus-A-clock bit of those three registers. -/
theorem claim_C3 (regs : PORT_1_2) (hifg : regs.p1ifg < 256) :
    (KeyboardPins.new.idle regs).p1dir = 0 ∧
    Nat.testBit (KeyboardPins.new.idle regs).p1ifg 0 = false ∧
    Nat.testBit (KeyboardPins.new.idle regs).p1ies 0 = true ∧
    Nat.testBit (KeyboardPins.new.idle regs).p1ie 0 = true ∧
    (∀ j : Nat, j ≠ 0 →
      Nat.testBit (KeyboardPins.new.idle regs).p1ifg j = Nat.testBit regs.p1ifg j ∧
      Nat.testBit (KeyboardPins.new.idle regs).p1ies j = Nat.testBit regs.p1ies j ∧
      Nat.testBit (KeyboardPins.new.idle regs).p1ie j = Nat.testBit regs.p1ie j) ∧
    (KeyboardPins.new.idle regs).p1in = regs.p1in ∧
    (KeyboardPins.new.idle regs).p1out = regs.p1out := by
  have heq : KeyboardPins.new.idle regs =
      { regs with p1dir := 0
                  p1ifg := clear_bits_with_mask regs.p1ifg 1
                  p1ies := set_bits_with_mask regs.p1ies 1
                  p1ie := set_bits_with_mask regs.p1ie 1 } := rfl
  rw [heq]
  refine ⟨rfl, ?_, ?_, ?_, ?_, rfl, rfl⟩
  · exact testBit_clear_clears _ _ _ (by decide)
  · exact testBit_set_sets _ _ _ (by decide)
  · exact testBit_set_sets _ _ _ (by decide)
  · intro j hj
    exact ⟨testBit_clear_preserve _ _ _ hifg (testBit_one_ne hj),
           testBit_set_preserve _ _ _ (testBit_one_ne hj),
           testBit_set_preserve _ _ _ (testBit_one_ne hj)⟩

/-- Witness for C3 at the seeded state regsA with unrelated bit 3. -/
theorem claim_C3_witness :
    (KeyboardPins.new.idle regsA).p1dir = 0 ∧
    Nat.testBit (KeyboardPins.new.idle regsA).p1ifg 3 = Nat.testBit regsA.p1ifg 3 :=
  ⟨(claim_C3 regsA (by decide)).1,
   ((claim_C3 regsA (by decide)).2.2.2.2.1 3 (by decide)).1⟩

/-- Claim C4: after at_idle both bus-A lines are inputs with output bits
high, the output bits being driven high (while the direction register is
still untouched) before the direction bits are cleared, and every bit
outside the two bus-A positions is unchanged in both registers. -/
theorem claim_C4 (regs : PORT_1_2) (hdir : regs.p1dir < 256) :
    Nat.testBit (KeyboardPins.new.at_idle regs).p1out 0 = true ∧
    Nat.testBit (KeyboardPins.new.at_idle regs).p1out 4 = true ∧
    Nat.testBit (KeyboardPins.new.at_idle regs).p1dir 0 = false ∧
    Nat.testBit (KeyboardPins.new.at_idle regs).p1dir 4 = false ∧
    (∀ j : Nat, j ≠ 0 → j ≠ 4 →
      Nat.testBit (KeyboardPins.new.at_idle regs).p1out j = Nat.testBit regs.p1out j ∧
      Nat.testBit (KeyboardPins.new.at_idle regs).p1dir j = Nat.testBit regs.p1dir j) ∧
    (KeyboardPins.new.at_data.set (KeyboardPins.new.at_clk.set regs)).p1dir = regs.p1dir ∧
    Nat.testBit (KeyboardPins.new.at_data.set (KeyboardPins.new.at_clk.set regs)).p1out 0
      = true ∧
    Nat.testBit (KeyboardPins.new.at_data.set (KeyboardPins.new.at_clk.set regs)).p1out 4
      = true ∧
    (KeyboardPins.new.at_idle regs).p1out
      = (KeyboardPins.new.at_data.set (KeyboardPins.new.at_clk.set regs)).p1out ∧
    (KeyboardPins.new.at_idle regs).p1in = regs.p1in ∧
    (KeyboardPins.new.at_idle regs).p1ifg = regs.p1ifg ∧
    (KeyboardPins.new.at_idle regs).p1ies = regs.p1ies ∧
    (KeyboardPins.new.at_idle regs).p1ie = regs.p1ie := by
  have hout0 : Nat.testBit (set_bits_with_mask (set_bits_with_mask regs.p1out 1) 16) 0
      = true := by
    rw [testBit_set_preserve _ _ _ (by decide)]
    exact testBit_set_sets _ _ _ (by decide)
  have hout4 : Nat.testBit (set_bits_with_mask (set_bits_with_mask regs.p1out 1) 16) 4
      = true := testBit_set_sets _ _ _ (by decide)
  have heq : KeyboardPins.new.at_idle regs =
      { regs with p1out := set_bits_with_mask (set_bits_with_mask regs.p1out 1) 16
                  p1dir := clear_bits_with_mask regs.p1dir 17 } := rfl
  rw [heq]
  refine ⟨hout0, hout4, ?_, ?_, ?_, rfl, hout0, hout4, rfl, rfl, rfl, rfl, rfl⟩
  · exact testBit_clear_clears _ _ _ (by decide)
  · exact testBit_clear_clears _ _ _ (by decide)
  · intro j h0 h4
    constructor
    · rw [testBit_set_preserve _ _ _ (testBit_sixteen_ne h4)]
      exact testBit_set_preserve _ _ _ (testBit_one_ne h0)
    · exact testBit_clear_preserve _ _ _ hdir (testBit_seventeen_ne h0 h4)

/-- Witness for C4 at the seeded state regsA with unrelated bit 6. -/
theorem claim_C4_witness :
    Nat.testBit (KeyboardPins.new.at_idle regsA).p1dir 0 = false ∧
    Nat.testBit (KeyboardPins.new.at_idle regsA).p1dir 6 = Nat.testBit regsA.p1dir 6 :=
  ⟨(claim_C4 regsA (by decide)).2.2.1,
   ((claim_C4 regsA (by decide)).2.2.2.2.1 6 (by decide) (by decide)).2⟩

/-- Claim C5: after xt_in both bus-B lines are inputs, the bus-B data output
bit is set to 1 (already set while the direction register is still
untouched), the bus-B clock output bit keeps its prior value, and every bit
outside the two bus-B positions is unchanged. -/
theorem claim_C5 (regs : PORT_1_2) (hdir : regs.p1dir < 256) :
    Nat.testBit (KeyboardPins.new.xt_in regs).p1dir 2 = false ∧
    Nat.testBit (KeyboardPins.new.xt_in regs).p1dir 3 = false ∧
    Nat.testBit (KeyboardPins.new.xt_in regs).p1out 3 = true ∧
    Nat.testBit (KeyboardPins.new.xt_in regs).p1out 2 = Nat.testBit regs.p1out 2 ∧
    (∀ j : Nat, j ≠ 2 → j ≠ 3 →
      Nat.testBit (KeyboardPins.new.xt_in regs).p1out j = Nat.testBit regs.p1out j ∧
      Nat.testBit (KeyboardPins.new.xt_in regs).p1dir j = Nat.testBit regs.p1dir j) ∧
    ({ regs with p1out := set_bits_with_mask regs.p1out KeyboardPins.new.xt_data.bitmask
       : PORT_1_2 }).p1dir = regs.p1dir ∧
    Nat.testBit ({ regs with
      p1out := set_bits_with_mask regs.p1out KeyboardPins.new.xt_data.bitmask
      : PORT_1_2 }).p1out 3 = true ∧
    (KeyboardPins.new.xt_in regs).p1out
      = ({ regs with
           p1out := set_bits_with_mask regs.p1out KeyboardPins.new.xt_data.bitmask
           : PORT_1_2 }).p1out ∧
    (KeyboardPins.new.xt_in regs).p1in = regs.p1in ∧
    (KeyboardPins.new.xt_in regs).p1ifg = regs.p1ifg ∧
    (KeyboardPins.new.xt_in regs).p1ies = regs.p1ies ∧
    (KeyboardPins.new.xt_in regs).p1ie = regs.p1ie := by
  have hout3 : Nat.testBit (set_bits_with_mask regs.p1out 8) 3 = true :=
    testBit_set_sets _ _ _ (by decide)
  have heq : KeyboardPins.new.xt_in regs =
      { regs with p1out := set_bits_with_mask regs.p1out 8
                  p1dir := clear_bits_with_mask regs.p1dir 12 } := rfl
  rw [heq]
  refine ⟨?_, ?_, hout3, ?_, ?_, rfl, hout3, rfl, rfl, rfl, rfl, rfl⟩
  · exact testBit_clear_clears _ _ _ (by decide)
  · exact testBit_clear_clears _ _ _ (by decide)
  · exact testBit_set_preserve _ _ _ (by decide)
  · intro j h2 h3
    exact ⟨testBit_set_preserve _ _ _ (testBit_eight_ne h3),
           testBit_clear_preserve _ _ _ hdir (testBit_twelve_ne h2 h3)⟩

/-- Witness for C5 at the seeded state regsA with unrelated bit 7. -/
theorem claim_C5_witness :
    Nat.testBit (KeyboardPins.new.xt_in regsA).p1out 2 = Nat.testBit regsA.p1out 2 ∧
    Nat.testBit (KeyboardPins.new.xt_in regsA).p1dir 7 = Nat.testBit regsA.p1dir 7 :=
  ⟨(claim_C5 regsA (by decide)).2.2.2.1,
   ((claim_C5 regsA (by decide)).2.2.2.2.1 7 (by decide) (by decide)).2⟩

/-- Claim C6: after xt_out both bus-B lines have output bit 1 and direction
bit 1 (output), and every bit outside the two bus-B positions is unchanged in
both registers. -/
theorem claim_C6 (regs : PORT_1_2) :
    Nat.testBit (KeyboardPins.new.xt_out regs).p1out 2 = true ∧
    Nat.testBit (KeyboardPins.new.xt_out regs).p1out 3 = true ∧
    Nat.testBit (KeyboardPins.new.xt_out regs).p1dir 2 = true ∧
    Nat.testBit (KeyboardPins.new.xt_out regs).p1dir 3 = true ∧
    (∀ j : Nat, j ≠ 2 → j ≠ 3 →
      Nat.testBit (KeyboardPins.new.xt_out regs).p1out j = Nat.testBit regs.p1out j ∧
      Nat.testBit (KeyboardPins.new.xt_out regs).p1dir j = Nat.testBit regs.p1dir j) ∧
    (KeyboardPins.new.xt_out regs).p1in = regs.p1in ∧
    (KeyboardPins.new.xt_out regs).p1ifg = regs.p1ifg ∧
    (KeyboardPins.new.xt_out regs).p1ies = regs.p1ies ∧
    (KeyboardPins.new.xt_out regs).p1ie = regs.p1ie := by
  have heq : KeyboardPins.new.xt_out regs =
      { regs with p1out := set_bits_with_mask regs.p1out 12
                  p1dir := set_bits_with_mask regs.p1dir 12 } := rfl
  rw [heq]
  refine ⟨?_, ?_, ?_, ?_, ?_, rfl, rfl, rfl, rfl⟩
  · exact testBit_set_sets _ _ _ (by decide)
  · exact testBit_set_sets _ _ _ (by decide)
  · exact testBit_set_sets _ _ _ (by decide)
  · exact testBit_set_sets _ _ _ (by decide)
  · intro j h2 h3
    exact ⟨testBit_set_preserve _ _ _ (testBit_twelve_ne h2 h3),
           testBit_set_preserve _ _ _ (testBit_twelve_ne h2 h3)⟩

/-- Witness for C6 at the seeded state regsA with unrelated bit 6. -/
theorem claim_C6_witness :
    Nat.testBit (KeyboardPins.new.xt_out regsA).p1out 2 = true ∧
    Nat.testBit (KeyboardPins.new.xt_out regsA).p1out 6 = Nat.testBit regsA.p1out 6 :=
  ⟨(claim_C6 regsA).1, ((claim_C6 regsA).2.2.2.2.1 6 (by decide) (by decide)).1⟩

/-- Claim C7: each interrupt-lifecycle operation modifies exactly the bus-A
clock bit (bit 0) of its single target register and no other bit of any
register: clear_at_clk_int clears it in P1IFG, enable_at_clk_int sets it in
P1IE, disable_at_clk_int clears it in P1IE. -/
theorem claim_C7 (regs : PORT_1_2) (hifg : regs.p1ifg < 256) (hie : regs.p1ie < 256) :
    Nat.testBit (KeyboardPins.new.clear_at_clk_int regs).p1ifg 0 = false ∧
    Nat.testBit (KeyboardPins.new.enable_at_clk_int regs).p1ie 0 = true ∧
    Nat.testBit (KeyboardPins.new.disable_at_clk_int regs).p1ie 0 = false ∧
    (∀ j : Nat, j ≠ 0 →
      Nat.testBit (KeyboardPins.new.clear_at_clk_int regs).p1ifg j
        = Nat.testBit regs.p1ifg j ∧
      Nat.testBit (KeyboardPins.new.enable_at_clk_int regs).p1ie j
        = Nat.testBit regs.p1ie j ∧
      Nat.testBit (KeyboardPins.new.disable_at_clk_int regs).p1ie j
        = Nat.testBit regs.p1ie j) ∧
    (KeyboardPins.new.clear_at_clk_int regs).p1in = regs.p1in ∧
    (KeyboardPins.new.clear_at_clk_int regs).p1out = regs.p1out ∧
    (KeyboardPins.new.clear_at_clk_int regs).p1dir = regs.p1dir ∧
    (KeyboardPins.new.clear_at_clk_int regs).p1ies = regs.p1ies ∧
    (KeyboardPins.new.clear_at_clk_int regs).p1ie = regs.p1ie ∧
    (KeyboardPins.new.enable_at_clk_int regs).p1in = regs.p1in ∧
    (KeyboardPins.new.enable_at_clk_int regs).p1out = regs.p1out ∧
    (KeyboardPins.new.enable_at_clk_int regs).p1dir = regs.p1dir ∧
    (KeyboardPins.new.enable_at_clk_int regs).p1ies = regs.p1ies ∧
    (KeyboardPins.new.enable_at_clk_int regs).p1ifg = regs.p1ifg ∧
    (KeyboardPins.new.disable_at_clk_int regs).p1in = regs.p1in ∧
    (KeyboardPins.new.disable_at_clk_int regs).p1out = regs.p1out ∧
    (KeyboardPins.new.disable_at_clk_int regs).p1dir = regs.p1dir ∧
    (KeyboardPins.new.disable_at_clk_int regs).p1ies = regs.p1ies ∧
    (KeyboardPins.new.disable_at_clk_int regs).p1ifg = regs.p1ifg := by
  refine ⟨?_, ?_, ?_, ?_, rfl, rfl, rfl, rfl, rfl, rfl, rfl, rfl, rfl, rfl,
          rfl, rfl, rfl, rfl, rfl⟩
  · exact testBit_clear_clears _ _ _ (by decide)
  · exact testBit_set_sets _ _ _ (by decide)
  · exact testBit_clear_clears _ _ _ (by decide)
  · intro j hj
    exact ⟨testBit_clear_preserve _ _ _ hifg (testBit_one_ne hj),
           testBit_set_preserve _ _ _ (testBit_one_ne hj),
           testBit_clear_preserve _ _ _ hie (testBit_one_ne hj)⟩

/-- Witness for C7 at the seeded state regsA with unrelated bit 1. -/
theorem claim_C7_witness :
    Nat.testBit (KeyboardPins.new.clear_at_clk_int regsA).p1ifg 0 = false ∧
    Nat.testBit (KeyboardPins.new.disable_at_clk_int regsA).p1ie 1
      = Nat.testBit regsA.p1ie 1 :=
  ⟨(claim_C7 regsA (by decide) (by decide)).1,
   ((claim_C7 regsA (by decide) (by decide)).2.2.2.1 1 (by decide)).2.2⟩

/-- Claim C10: none of the composite bus-state operations at_idle,
at_inhibit, at_send, xt_out, xt_in touches the interrupt-enable, edge-select
or flag registers (or the input register): they modify only P1OUT and P1DIR.
The reads is_set and is_unset are embedded as pure functions (they return a
Bool and no state, so they modify no register by construction); their result
depends only on the input register P1IN. -/
theorem claim_C10 (regs : PORT_1_2) :
    (KeyboardPins.new.at_idle regs).p1ifg = regs.p1ifg ∧
    (KeyboardPins.new.at_idle regs).p1ies = regs.p1ies ∧
    (KeyboardPins.new.at_idle regs).p1ie = regs.p1ie ∧
    (KeyboardPins.new.at_idle regs).p1in = regs.p1in ∧
    (KeyboardPins.new.at_inhibit regs).p1ifg = regs.p1ifg ∧
    (KeyboardPins.new.at_inhibit regs).p1ies = regs.p1ies ∧
    (KeyboardPins.new.at_inhibit regs).p1ie = regs.p1ie ∧
    (KeyboardPins.new.at_inhibit regs).p1in = regs.p1in ∧
    (KeyboardPins.new.at_send regs).p1ifg = regs.p1ifg ∧
    (KeyboardPins.new.at_send regs).p1ies = regs.p1ies ∧
    (KeyboardPins.new.at_send regs).p1ie = regs.p1ie ∧
    (KeyboardPins.new.at_send regs).p1in = regs.p1in ∧
    (KeyboardPins.new.xt_out regs).p1ifg = regs.p1ifg ∧
    (KeyboardPins.new.xt_out regs).p1ies = regs.p1ies ∧
    (KeyboardPins.new.xt_out regs).p1ie = regs.p1ie ∧
    (KeyboardPins.new.xt_out regs).p1in = regs.p1in ∧
    (KeyboardPins.new.xt_in regs).p1ifg = regs.p1ifg ∧
    (KeyboardPins.new.xt_in regs).p1ies = regs.p1ies ∧
    (KeyboardPins.new.xt_in regs).p1ie = regs.p1ie ∧
    (KeyboardPins.new.xt_in regs).p1in = regs.p1in ∧
    (∀ (s : Pin) (q : PORT_1_2), regs.p1in = q.p1in →
      s.is_set regs = s.is_set q ∧ s.is_unset regs = s.is_unset q) := by
  refine ⟨rfl, rfl, rfl, rfl, rfl, rfl, rfl, rfl, rfl, rfl, rfl, rfl, rfl, rfl,
          rfl, rfl, rfl, rfl, rfl, rfl, ?_⟩
  intro s q h
  constructor
  · simp [Pin.is_set, h]
  · simp [Pin.is_unset, h]

/-- Witness for C10 at the seeded state regsA, with the read part applied to
the states regsA and regsB, which agree exactly on P1IN. -/
theorem claim_C10_witness :
    (KeyboardPins.new.at_send regsA).p1ie = regsA.p1ie ∧
    (Pin.new 0).is_set regsA = (Pin.new 0).is_set regsB ∧
    (Pin.new 7).is_unset regsA = (Pin.new 7).is_unset regsB :=
  ⟨(claim_C10 regsA).2.2.2.2.2.2.2.2.2.2.1,
   ((claim_C10 regsA).2.2.2.2.2.2.2.2.2.2.2.2.2.2.2.2.2.2.2.2 (Pin.new 0) regsB rfl).1,
   ((claim_C10 regsA).2.2.2.2.2.2.2.2.2.2.2.2.2.2.2.2.2.2.2.2 (Pin.new 7) regsB rfl).2⟩
